import Mathlib

/-!
# A shallow embedding of the `markupify` HTML-building library

This file models the Python sources `markupify/tags.py` and
`markupify/page.py` in Lean 4 and proves (or refutes) the specified
behavioural properties.

Modelling conventions:
* Python strings are `String`; `str.lower` is `String.toLower`,
  `str.strip("_")` and `str.strip()` are implemented below, and
  `name.replace("_", "-")` is a character map (the pattern is one char).
* Python exceptions are the `PyError` inductive (`ValueError` / `TypeError`).
* Keyword-argument bags (`**props`) are insertion-ordered association
  lists `List (String × PyVal)`, where `PyVal` covers the value shapes the
  library manipulates (`None`, `str`, `dict`, `int`).
* The `*tags` variadic content is `List Arg`, an item being a plain string
  or a nested `Element` (as in the documented signature).
* CPython call semantics are modelled where they matter: every tag
  subclass invokes `super().__init__(tag_name="...", *tags, **props)`, and
  when `tags` is non-empty its first item binds positionally to the
  `tag_name` parameter, so the call raises
  `TypeError: got multiple values for argument 'tag_name'`.
  Likewise `"".join(tags)` raises `TypeError` on a non-`str` item, and an
  unknown keyword such as `tag_content=` or `tags=` is collected into
  `**props` rather than becoming content.
-/

namespace Markupify

/-- The two Python exception classes raised by the library
(`ValueError` and `TypeError`), with their message. -/
inductive PyError where
  | valueError (msg : String)
  | typeError (msg : String)
deriving Repr, DecidableEq

/-- The shapes of Python values that flow through `**props` in this
library: `None`, strings, string-valued dicts (for `style`), and ints
(standing for the remaining, non-string non-dict values such as `0`). -/
inductive PyVal where
  | none
  | str (s : String)
  | dict (entries : List (String × String))
  | int (n : Int)
deriving Repr, DecidableEq

/-- Python truthiness for `PyVal` (`if style_property:`). -/
def PyVal.truthy : PyVal → Bool
  | .none => false
  | .str s => !(s == "")
  | .dict d => !(d matches [])
  | .int n => !(n == 0)

/-- Drop, on both ends of a character list, the characters satisfying
`p` (the list-level core of Python's `str.strip`). -/
def stripEnds (p : Char → Bool) (l : List Char) : List Char :=
  ((l.dropWhile p).reverse.dropWhile p).reverse

/-- Python `name.strip("_")`: remove leading and trailing underscores. -/
def stripUnderscores (s : String) : String :=
  ⟨stripEnds (fun c => c == '_') s.data⟩

/-- ASCII whitespace as recognised by Python's `str.strip()`. -/
def isPySpace (c : Char) : Bool :=
  c == ' ' || c == '\t' || c == '\n' || c == '\r' || c == '\x0b' || c == '\x0c'

/-- Python `s.strip()` (on the ASCII whitespace the library produces). -/
def stripSpaces (s : String) : String :=
  ⟨stripEnds isPySpace s.data⟩

/-- Python `name.replace("_", "-")` (single-character pattern, hence a
character map). -/
def underscoreToHyphen (s : String) : String :=
  ⟨s.data.map (fun c => if c == '_' then '-' else c)⟩

/-- Python `tag_name.lower()` on the ASCII tag names the library uses
(character-wise lowering). -/
def pyLower (s : String) : String :=
  ⟨s.data.map Char.toLower⟩

/-- The key normalisation performed by `add_properties` / `add_styles`:
`name.strip("_")` then `name.replace("_", "-")`. -/
def normalizeKey (name : String) : String :=
  underscoreToHyphen (stripUnderscores name)

/-- The state of an `Element` instance after `__init__` has run:
its tag name (lower-cased), end-tag flag, joined content string, the
remaining property bag (`self.properties`, with `style` popped), the
serialized attribute buffer `self.props`, and the style buffer. -/
structure Element where
  tag_name : String
  has_end_tag : Bool
  tag_content : String
  properties : List (String × PyVal)
  props : String
  style : String
deriving Repr, DecidableEq

/-- Python `str(value)` for the `PyVal` shapes (dict shown in its
`repr` form, as an f-string would produce). -/
def PyVal.pyStr : PyVal → String
  | .none => "None"
  | .str s => s
  | .dict d =>
      "\x7b" ++ String.intercalate ", "
        (d.map (fun p => "\x27" ++ p.1 ++ "\x27: \x27" ++ p.2 ++ "\x27")) ++ "\x7d"
  | .int n => toString n

/-- An item of the `*tags` variadic argument: a plain string or a nested
element (per the documented signature `*tags: str | Element`). -/
inductive Arg where
  | str (s : String)
  | elem (e : Element)
deriving Repr, DecidableEq

/-- Is this content item a Python `str`? -/
def Arg.isStr : Arg → Bool
  | .str _ => true
  | .elem _ => false

/-- Python `"".join(tags)`: concatenates string items, raises
`TypeError` at the first non-`str` item (an `Element` is not a `str`). -/
def pyJoin : List Arg → Except PyError String
  | [] => Except.ok ""
  | Arg.str s :: rest =>
      match pyJoin rest with
      | Except.ok t => Except.ok (s ++ t)
      | Except.error e => Except.error e
  | Arg.elem _ :: _ =>
      Except.error (PyError.typeError "sequence item: expected str instance, Element found")

/-- Python `self.properties.pop("style", None)`: the value bound to
`"style"` (or `None`) together with the bag with that entry removed. -/
def popStyle : List (String × PyVal) → PyVal × List (String × PyVal)
  | [] => (PyVal.none, [])
  | (k, v) :: rest =>
      if k = "style" then (v, rest)
      else
        let r := popStyle rest
        (r.1, (k, v) :: r.2)

/-- `Element.add_property`: append `name="value" ` to the attribute
buffer (no normalisation, no de-duplication). -/
def addPropertyStr (buf name value : String) : String :=
  buf ++ name ++ "=\x22" ++ value ++ "\x22 "

/-- `Element.add_properties`: normalise each key and append each
`name="value" ` pair, in iteration order. -/
def addPropertiesStr (buf : String) : List (String × PyVal) → String
  | [] => buf
  | (name, value) :: rest =>
      addPropertiesStr (addPropertyStr buf (normalizeKey name) value.pyStr) rest

/-- `Element.add_styles`: normalise each key and append each
`name: value;` declaration, in iteration order. -/
def addStylesStr (buf : String) : List (String × String) → String
  | [] => buf
  | (name, value) :: rest =>
      addStylesStr (buf ++ normalizeKey name ++ ": " ++ value ++ ";") rest

/-- The `style`-property handling of `Element.__init__`: a falsy value
is ignored (`if style_property:`), a truthy string is taken verbatim, a
truthy dict is flattened by `add_styles`, and any other truthy value
raises `TypeError`. -/
def styleOf (v : PyVal) : Except PyError String :=
  if v.truthy then
    match v with
    | PyVal.str s => Except.ok s
    | PyVal.dict d => Except.ok (addStylesStr "" d)
    | _ => Except.error (PyError.typeError "style property must be string or dict.")
  else Except.ok ""

/-- `Element.__init__` called positionally:
`Element(tag_name, has_end_tag, *tags, **props)`.
Raises `ValueError` when a tag without end part is given content, joins
the content items (`TypeError` on an `Element` item), pops the `style`
property and processes it (`styleOf`), then serialises the style and
the remaining properties into the attribute buffer. -/
def Element.init (tag_name : String) (has_end_tag : Bool)
    (tags : List Arg) (props : List (String × PyVal)) :
    Except PyError Element :=
  if has_end_tag = false ∧ tags ≠ [] then
    Except.error (PyError.valueError
      "Tags without end parts cannot contain content. Set has_end_tag to True or leave blank the *tags.")
  else
    match pyJoin tags with
    | Except.error e => Except.error e
    | Except.ok content =>
      let sp := popStyle props
      match styleOf sp.1 with
      | Except.error e => Except.error e
      | Except.ok style =>
        let buf := if style ≠ "" then addPropertyStr "" "style" style else ""
        Except.ok
          { tag_name := pyLower tag_name
            has_end_tag := has_end_tag
            tag_content := content
            properties := sp.2
            props := addPropertiesStr buf sp.2
            style := style }

/-- `Element.render`: the template build
`"<{tag_name}"`, `" {props}"` when the buffer is non-empty (stripped),
`">"` for tags with end part, the content when non-empty, then
`"</{tag_name}>"` or `" />"`. -/
def Element.render (e : Element) : String :=
  let s := "<" ++ e.tag_name
  let s := if e.props ≠ "" then s ++ " " ++ stripSpaces e.props else s
  let s := if e.has_end_tag then s ++ ">" else s
  let s := if e.tag_content ≠ "" then s ++ e.tag_content else s
  if e.has_end_tag then s ++ "</" ++ e.tag_name ++ ">" else s ++ " />"

/-- Python `str(x)` for a content item: a string is itself, an element
renders (`__str__` calls `render`). -/
def Arg.pyStr : Arg → String
  | .str s => s
  | .elem e => e.render

/-- A tag subclass forwarding
`super().__init__(tag_name="...", *tags, **props)`.
CPython binds the positional `tags` items first, so a non-empty `tags`
collides with the `tag_name` keyword and the call raises
`TypeError: got multiple values for argument 'tag_name'`; with no
content items the element is built with the default `has_end_tag=True`. -/
def subInit (tagName : String) (tags : List Arg)
    (props : List (String × PyVal)) : Except PyError Element :=
  if tags ≠ [] then
    Except.error (PyError.typeError "got multiple values for argument tag_name")
  else Element.init tagName true [] props

/-- The `Div` class: `super().__init__(tag_name="div", *tags, **props)`. -/
def divNew (tags : List Arg) (props : List (String × PyVal)) : Except PyError Element :=
  subInit "div" tags props

/-- The `Span` class: `super().__init__(tag_name="span", *tags, **props)`. -/
def spanNew (tags : List Arg) (props : List (String × PyVal)) : Except PyError Element :=
  subInit "span" tags props

/-- The `Title` class: `super().__init__(tag_name="title", *tags, **props)`. -/
def titleNew (tags : List Arg) (props : List (String × PyVal)) : Except PyError Element :=
  subInit "title" tags props

/-- The `P` class: `super().__init__(tag_name="p", *tags, **props)`. -/
def pNew (tags : List Arg) (props : List (String × PyVal)) : Except PyError Element :=
  subInit "p" tags props

/-- The `H` class: heading whose level is validated
(`if not 1 <= level <= 6: raise ValueError(...)`) and folded into the
tag name `f"h{level}"` before forwarding. -/
def hNew (level : Int) (tags : List Arg) (props : List (String × PyVal)) :
    Except PyError Element :=
  if 1 ≤ level ∧ level ≤ 6 then
    subInit ("h" ++ toString level) tags props
  else
    Except.error (PyError.valueError "The heading level must be an integer in range 1-6.")

/-- The `Circle` class: its `super().__init__(tag_content="circle",
has_end_tag=False, **props)` call sends `tag_content` (not `tag_name`)
as a keyword, which lands in `**props`; `tag_name` keeps its default
`"div"`. -/
def circleNew (props : List (String × PyVal)) : Except PyError Element :=
  Element.init "div" false [] (("tag_content", PyVal.str "circle") :: props)

/-- The `Col` class: same slip as `Circle`
(`super().__init__(tag_content="col", has_end_tag=False, **props)`). -/
def colNew (props : List (String × PyVal)) : Except PyError Element :=
  Element.init "div" false [] (("tag_content", PyVal.str "col") :: props)

/-- `Element.__add__`: builds
`Element(tag_name=..., has_end_tag=..., tag_content=str(self.tag_content) + str(other), **self.properties)`.
`Element.__init__` has no `tag_content` parameter, so that keyword is
collected into `**props`. -/
def Element.add (e : Element) (other : Arg) : Except PyError Element :=
  Element.init e.tag_name e.has_end_tag []
    (("tag_content", PyVal.str (e.tag_content ++ other.pyStr)) :: e.properties)

/-- `DocType`: renders `f"<!DOCTYPE {self.doc_type}>"`. -/
structure DocType where
  doc_type : String
deriving Repr, DecidableEq

/-- `DocType.render`. -/
def DocType.render (d : DocType) : String :=
  "<!DOCTYPE " ++ d.doc_type ++ ">"

/-- The state of an `HTMLPage`: its language and the current head and
body elements. -/
structure HTMLPage where
  lang : String
  head : Element
  body : Element
deriving Repr, DecidableEq

/-- `HTMLPage.set_head` builds its element: the contents are
string-concatenated and passed as the `tag_content` keyword to
`Head(...)`, where it lands in `**props`. -/
def setHeadElement (args : List Arg) (props : List (String × PyVal)) :
    Except PyError Element :=
  subInit "head" [] (("tag_content", PyVal.str (args.foldl (fun acc a => acc ++ a.pyStr) "")) :: props)

/-- `HTMLPage.set_body` builds its element, symmetric to `set_head`. -/
def setBodyElement (args : List Arg) (props : List (String × PyVal)) :
    Except PyError Element :=
  subInit "body" [] (("tag_content", PyVal.str (args.foldl (fun acc a => acc ++ a.pyStr) "")) :: props)

/-- `HTMLPage.__init__(lang)`: stores the language and initialises the
head and body via `set_head()` / `set_body()` with no arguments. -/
def HTMLPage.init (lang : String) : Except PyError HTMLPage :=
  match setHeadElement [] [], setBodyElement [] [] with
  | Except.ok h, Except.ok b => Except.ok { lang := lang, head := h, body := b }
  | Except.error e, _ => Except.error e
  | _, Except.error e => Except.error e

/-- `HTMLPage.set_head` as a state update on the page. -/
def HTMLPage.setHead (p : HTMLPage) (args : List Arg)
    (props : List (String × PyVal)) : Except PyError HTMLPage :=
  (setHeadElement args props).map (fun h => { p with head := h })

/-- `HTMLPage.set_body` as a state update on the page. -/
def HTMLPage.setBody (p : HTMLPage) (args : List Arg)
    (props : List (String × PyVal)) : Except PyError HTMLPage :=
  (setBodyElement args props).map (fun b => { p with body := b })

/-- The `HTMLPage.html` property:
`Html(tag_content=f"{self._head}{self._body}", lang=self.lang)` — both
keywords land in `Html`'s `**props`. -/
def HTMLPage.htmlElement (p : HTMLPage) : Except PyError Element :=
  subInit "html" []
    [("tag_content", PyVal.str (p.head.render ++ p.body.render)),
     ("lang", PyVal.str p.lang)]

/-- `HTMLPage.render`:
`"{doc_type}{html}".format(doc_type=self.doc_type, html=self.html)`. -/
def HTMLPage.render (p : HTMLPage) : Except PyError String :=
  (p.htmlElement).map (fun h => (DocType.mk "html").render ++ h.render)

/-- The tag catalog as realised by the subclasses of `Element` in
`tags.py`: each entry is the `tag_name` string passed to
`super().__init__` together with the class's end-tag flag
(`false` for the classes passing `has_end_tag=False`).
`Circle`, `Col` (which pass `tag_content=` instead of `tag_name=`) and
`Style` (which passes a stray `tags=` keyword) do not fit this shape and
are modelled separately; `A` always adds an `href` attribute and `H`
takes a level, folded into the name (their empty constructions are not
attribute-free constructions of a fixed name). -/
def catalog : List (String × Bool) :=
  [("abbr", true), ("address", true), ("area", false), ("article", true),
   ("aside", true), ("audio", true), ("b", true), ("base", false),
   ("bdi", true), ("bdo", true), ("blockquote", true), ("body", true),
   ("br", false), ("button", true), ("canvas", true), ("caption", true),
   ("cite", true), ("code", true), ("colgroup", true), ("data", true),
   ("datalist", true), ("dd", true), ("defs", true), ("del", true),
   ("details", true), ("dfn", true), ("dialog", true), ("div", true),
   ("dl", true), ("dt", true), ("ellipse", false), ("em", true),
   ("embed", false), ("fieldset", true), ("figcaption", true),
   ("figure", true), ("footer", true), ("form", true), ("head", true),
   ("header", true), ("hgroup", true), ("hr", false), ("html", true),
   ("i", true), ("iframe", true), ("img", false), ("input", false),
   ("ins", true), ("kbd", true), ("label", true), ("legend", true),
   ("li", true), ("linearGradient", true), ("link", false), ("main", true),
   ("map", true), ("mark", true), ("menu", true), ("meta", false),
   ("meter", true), ("nav", true), ("noscript", true), ("option", true),
   ("ol", true), ("optgroup", true), ("output", true), ("p", true),
   ("param", true), ("picture", true), ("polygon", false), ("pre", true),
   ("progress", true), ("q", true), ("rect", false), ("rp", true),
   ("rt", true), ("ruby", true), ("s", true), ("samp", true),
   ("script", true), ("search", true), ("section", true), ("select", true),
   ("small", true), ("source", false), ("span", true), ("stop", false),
   ("strong", true), ("sub", true), ("summary", true), ("sup", true),
   ("svg", true), ("table", true), ("tbody", true), ("td", true),
   ("template", true), ("text", true), ("textarea", true), ("tfoot", true),
   ("th", true), ("thead", true), ("time", true), ("title", true),
   ("tr", true), ("track", true), ("u", true), ("ul", true), ("var", true),
   ("video", true), ("wbr", true)]

/-- Construct a catalog tag with no content and no properties: the
non-void classes go through the `tag_name=` keyword forwarding, the void
classes additionally pass `has_end_tag=False`. -/
def emptyNew (tagName : String) (hasEnd : Bool) : Except PyError Element :=
  if hasEnd then subInit tagName [] [] else Element.init tagName false [] []

/-- The markup the specification expects for an empty, attribute-free
construction of a catalog tag (the element stores its tag name
lower-cased). -/
def expectedEmptyRender (tagName : String) (hasEnd : Bool) : String :=
  if hasEnd then
    "<" ++ pyLower tagName ++ "></" ++ pyLower tagName ++ ">"
  else
    "<" ++ pyLower tagName ++ " />"

/-- Does the empty construction of a catalog entry render as the
specification states? -/
def checkCatalogEntry (entry : String × Bool) : Bool :=
  match emptyNew entry.1 entry.2 with
  | Except.ok el => el.render == expectedEmptyRender entry.1 entry.2
  | Except.error _ => false

/-! ## Auxiliary definitions used by the statements -/

/-- Did this library call succeed (no exception)? -/
def exceptOk {ε α : Type} : Except ε α → Bool
  | Except.ok _ => true
  | Except.error _ => false

/-- Is this `style` value accepted by `Element.__init__` — falsy (hence
ignored), or a string, or a dict? -/
def styleAcceptable (v : PyVal) : Bool :=
  !v.truthy || (v matches PyVal.str _) || (v matches PyVal.dict _)

/-- The element produced by the positional base-class call
`Element("span", True, "hello")` (the only way to build a `span` with
content, since the `Span` wrapper raises on content). -/
def spanHello : Element :=
  { tag_name := "span", has_end_tag := true, tag_content := "hello",
    properties := [], props := "", style := "" }

/-- The element produced by `Element("div")` with no content and no
properties. -/
def divEmpty : Element :=
  { tag_name := "div", has_end_tag := true, tag_content := "",
    properties := [], props := "", style := "" }

/-! ## Helper lemmas -/

/-- Unfolding of `String` concatenation into character lists. -/
theorem strData (a b : String) : (a ++ b).data = a.data ++ b.data := rfl

/-- A `dropWhile` whose first character already fails the predicate is
the identity. -/
theorem dropWhile_eq_self_of_head {p : Char → Bool} {l : List Char}
    (h : l.head?.all (fun c => !p c) = true) : l.dropWhile p = l := by
  cases l with
  | nil => rfl
  | cons c t =>
    rw [List.dropWhile_cons]
    simp [Option.all_some] at h
    simp [h]

/-- Stripping is the identity when neither end satisfies the
predicate. -/
theorem stripEnds_eq_self {p : Char → Bool} {l : List Char}
    (h1 : l.head?.all (fun c => !p c) = true)
    (h2 : l.getLast?.all (fun c => !p c) = true) : stripEnds p l = l := by
  unfold stripEnds
  rw [dropWhile_eq_self_of_head h1]
  rw [dropWhile_eq_self_of_head (by simpa [List.head?_reverse] using h2)]
  exact List.reverse_reverse l

/-- `name.strip("_")` is the identity on keys without edge
underscores. -/
theorem stripUnderscores_eq_self {name : String}
    (h1 : name.data.head?.all (fun c => !(c == '_')) = true)
    (h2 : name.data.getLast?.all (fun c => !(c == '_')) = true) :
    stripUnderscores name = name := by
  unfold stripUnderscores
  rw [stripEnds_eq_self h1 h2]

/-- Stripping the attribute buffer `a="v" ` removes exactly the
trailing separator space (the buffer ends with a quote before it, and
its first character is not whitespace). -/
theorem stripSpaces_attr (a v : String)
    (ha : a.data.head?.all (fun c => !isPySpace c) = true) :
    stripSpaces (a ++ "=\x22" ++ v ++ "\x22 ") = a ++ "=\x22" ++ v ++ "\x22" := by
  apply String.ext
  have e1 : (a ++ "=\x22" ++ v ++ "\x22 ").data
      = (a.data ++ '=' :: '\x22' :: v.data) ++ ['\x22', ' '] := by
    simp [strData, List.append_assoc]
  show stripEnds isPySpace ((a ++ "=\x22" ++ v ++ "\x22 ").data) = _
  rw [e1]
  unfold stripEnds
  have hhead : ((a.data ++ '=' :: '\x22' :: v.data) ++ ['\x22', ' ']).head?.all
      (fun c => !isPySpace c) = true := by
    cases hA : a.data with
    | nil => rfl
    | cons c t =>
      rw [hA] at ha
      simpa using ha
  rw [dropWhile_eq_self_of_head hhead]
  rw [List.reverse_append]
  have e2 : (['\x22', ' '].reverse : List Char) ++ (a.data ++ '=' :: '\x22' :: v.data).reverse
      = ' ' :: '\x22' :: (a.data ++ '=' :: '\x22' :: v.data).reverse := by
    simp
  rw [e2]
  rw [List.dropWhile_cons]
  simp only [show isPySpace ' ' = true from rfl, if_true]
  rw [List.dropWhile_cons]
  simp only [show isPySpace '\x22' = false from rfl, Bool.false_eq_true, if_false]
  rw [List.reverse_cons, List.reverse_reverse]
  simp [strData, List.append_assoc]

/-- `styleOf` succeeds exactly on acceptable style values. -/
theorem styleOf_ok (v : PyVal) : exceptOk (styleOf v) = styleAcceptable v := by
  cases v with
  | none => rfl
  | str s => by_cases h : s = "" <;> simp [styleOf, styleAcceptable, PyVal.truthy, h, exceptOk]
  | dict d => cases d <;> simp [styleOf, styleAcceptable, PyVal.truthy, exceptOk]
  | int n => by_cases h : n = 0 <;> simp [styleOf, styleAcceptable, PyVal.truthy, h, exceptOk]

/-- `"".join(tags)` succeeds exactly when every item is a string. -/
theorem pyJoin_ok (tags : List Arg) : exceptOk (pyJoin tags) = tags.all Arg.isStr := by
  induction tags with
  | nil => rfl
  | cons a rest ih =>
    cases a with
    | str s =>
      cases hr : pyJoin rest with
      | ok t => rw [hr] at ih; simp [pyJoin, hr, exceptOk, Arg.isStr] at ih ⊢; exact ih
      | error e => rw [hr] at ih; simp [pyJoin, hr, exceptOk, Arg.isStr] at ih ⊢; exact ih
    | elem e => simp [pyJoin, exceptOk, Arg.isStr]

/-- Characterisation of when `Element.__init__` succeeds: the
void-content invariant holds, every content item is a string, and the
popped `style` value is acceptable. -/
theorem init_ok (n : String) (h : Bool) (tags : List Arg)
    (props : List (String × PyVal)) :
    exceptOk (Element.init n h tags props) =
      ((h || tags.isEmpty) && tags.all Arg.isStr && styleAcceptable (popStyle props).1) := by
  unfold Element.init
  split
  · rename_i hc
    obtain ⟨hh, ht⟩ := hc
    subst hh
    simp [exceptOk, List.isEmpty_iff, ht]
  · rename_i hc
    have hlhs : (h || tags.isEmpty) = true := by
      cases h with
      | true => rfl
      | false =>
        have : tags = [] := by
          by_contra hne
          exact hc ⟨rfl, hne⟩
        simp [this]
    cases hj : pyJoin tags with
    | error e =>
      have hall : tags.all Arg.isStr = false := by rw [← pyJoin_ok, hj]; rfl
      simp [exceptOk, hall]
    | ok content =>
      have hall : tags.all Arg.isStr = true := by rw [← pyJoin_ok, hj]; rfl
      cases hs : styleOf (popStyle props).1 with
      | error e =>
        have := styleOf_ok (popStyle props).1
        rw [hs] at this
        simp [exceptOk, hs, hlhs, hall, ← this]
      | ok st =>
        have := styleOf_ok (popStyle props).1
        rw [hs] at this
        simp [exceptOk, hs, hlhs, hall, ← this]

/-- Constructing a `div` with a single non-`style` property: the
property bag is kept and the attribute buffer is the single serialized
pair. -/
theorem init_single_prop (name v : String) (h0 : name ≠ "style") :
    Element.init "div" true [] [(name, PyVal.str v)] =
      Except.ok { tag_name := "div", has_end_tag := true, tag_content := "",
                  properties := [(name, PyVal.str v)],
                  props := normalizeKey name ++ "=\x22" ++ v ++ "\x22 ",
                  style := "" } := by
  unfold Element.init
  simp [popStyle, h0, styleOf, PyVal.truthy, addPropertiesStr, addPropertyStr,
    PyVal.pyStr, pyJoin, pyLower]

/-- Rendering a `div` whose attribute buffer holds one serialized
pair. -/
theorem render_single_attr (nk v : String) (P : List (String × PyVal))
    (hh : nk.data.head?.all (fun c => !isPySpace c) = true) :
    Element.render { tag_name := "div", has_end_tag := true, tag_content := "",
                     properties := P, props := nk ++ "=\x22" ++ v ++ "\x22 ",
                     style := "" } =
      "<div " ++ nk ++ "=\x22" ++ v ++ "\x22></div>" := by
  have hne : (nk ++ "=\x22" ++ v ++ "\x22 ") ≠ "" := by
    intro hcontra
    have := congrArg String.data hcontra
    simp [strData] at this
  apply String.ext
  unfold Element.render
  simp [hne, stripSpaces_attr nk v hh, strData, List.append_assoc]

/-! ## Theorems about the claims -/

/-- Claim C1: the specified document round-trip does not happen on this
code. `Title("x")` and `P("y")` already raise
`TypeError: got multiple values for argument 'tag_name'` (their `*tags`
bind positionally to `tag_name` in `super().__init__`), so the head and
body contents of the scenario cannot even be constructed; moreover, an
`HTMLPage("fr")` renders the head and body inside a `tag-content="..."`
attribute of `<html>` (the `tag_content=` keyword lands in `**props`),
not as nested markup. -/
theorem claim_C1_page_round_trip :
    titleNew [Arg.str "x"] []
      = Except.error (PyError.typeError "got multiple values for argument tag_name") ∧
    pNew [Arg.str "y"] []
      = Except.error (PyError.typeError "got multiple values for argument tag_name") ∧
    (HTMLPage.init "fr").map HTMLPage.render
      = Except.ok (Except.ok "<!DOCTYPE html><html tag-content=\"<head tag-content=\"\"></head><body tag-content=\"\"></body>\" lang=\"fr\"></html>") :=
  ⟨rfl, rfl, rfl⟩

/-- Claim C2: `Div(Span("hello"))` does not render; it raises.
`Span("hello")` itself raises `TypeError: got multiple values for
argument 'tag_name'`; and even handing an already-built span element to
the base class, `Element("div", True, span)` raises `TypeError` from
`"".join(tags)` because an `Element` is not a `str`. Only pre-rendered
strings nest: `Element("span", True, "hello")` renders
`<span>hello</span>`. -/
theorem claim_C2_nesting_raises :
    spanNew [Arg.str "hello"] []
      = Except.error (PyError.typeError "got multiple values for argument tag_name") ∧
    Element.init "span" true [Arg.str "hello"] [] = Except.ok spanHello ∧
    spanHello.render = "<span>hello</span>" ∧
    Element.init "div" true [Arg.elem spanHello] []
      = Except.error (PyError.typeError "sequence item: expected str instance, Element found") :=
  ⟨rfl, rfl, rfl, rfl⟩

/-- Claim C3: every catalog tag except `circle` and `col` renders an
empty construction as `<tagname></tagname>` (non-void) or `<tagname />`
(void); `Circle()` and `Col()`, whose constructors pass
`tag_content="circle"` / `tag_content="col"` instead of `tag_name=`,
render `<div tag-content="circle" />` and `<div tag-content="col" />`
instead of `<circle />` / `<col />`. -/
theorem claim_C3_catalog_empty_renders :
    catalog.all checkCatalogEntry = true ∧
    (circleNew []).map Element.render = Except.ok "<div tag-content=\"circle\" />" ∧
    (colNew []).map Element.render = Except.ok "<div tag-content=\"col\" />" :=
  ⟨rfl, rfl, rfl⟩

/-- The element produced by `Element("div", True, "a")`. -/
def divWithA : Element :=
  { tag_name := "div", has_end_tag := true, tag_content := "a",
    properties := [], props := "", style := "" }

/-- The element actually produced by `Element("div", True, "a") + "b"`:
its content is empty and the concatenation `"ab"` became a
`tag-content` attribute. -/
def divWithAPlusB : Element :=
  { tag_name := "div", has_end_tag := true, tag_content := "",
    properties := [("tag_content", PyVal.str "ab")],
    props := "tag-content=\"ab\" ", style := "" }

/-- Claim C4 counterexample: constructing with `style=None` — a value
that is neither a string nor a mapping — succeeds (the falsy value is
skipped), where the claim demands a failure; and constructing a
non-void element whose content item is an `Element` fails with
`TypeError` (from `"".join`), where the claim demands success. -/
theorem claim_C4_counterexample :
    Element.init "div" true [] [("style", PyVal.none)] = Except.ok divEmpty ∧
    Element.init "div" true [Arg.elem divEmpty] []
      = Except.error (PyError.typeError "sequence item: expected str instance, Element found") :=
  ⟨rfl, rfl⟩

/-- Claim C4 (amended): `Element` construction succeeds exactly when
the element is not a self-closing one given non-empty content, every
content item is a string, and the `style` value is falsy (of any type)
or a string or a mapping; a self-closing tag with content raises
`ValueError` and a truthy non-string non-mapping `style` raises
`TypeError`. -/
theorem claim_C4_construction_error_conditions :
    (∀ (n : String) (h : Bool) (tags : List Arg) (props : List (String × PyVal)),
      exceptOk (Element.init n h tags props) =
        ((h || tags.isEmpty) && tags.all Arg.isStr && styleAcceptable (popStyle props).1)) ∧
    Element.init "img" false [Arg.str "x"] []
      = Except.error (PyError.valueError
          "Tags without end parts cannot contain content. Set has_end_tag to True or leave blank the *tags.") ∧
    Element.init "div" true [] [("style", PyVal.int 5)]
      = Except.error (PyError.typeError "style property must be string or dict.") :=
  ⟨init_ok, rfl, rfl⟩

/-- Claim C5: the combine operator does not concatenate content.
`Element.__add__` passes the concatenation as the keyword
`tag_content=`, which `Element.__init__` collects into `**props`, so
`Element("div", True, "a") + "b"` yields an element whose content is
empty and which renders `<div tag-content="ab"></div>` instead of
`<div>ab</div>`. -/
theorem claim_C5_add_content_becomes_attribute :
    Element.init "div" true [Arg.str "a"] [] = Except.ok divWithA ∧
    divWithA.add (Arg.str "b") = Except.ok divWithAPlusB ∧
    divWithAPlusB.tag_content = "" ∧
    divWithAPlusB.render = "<div tag-content=\"ab\"></div>" :=
  ⟨rfl, rfl, rfl, rfl⟩

/-- Claim C6: `H(0)` and `H(7)` raise the heading-level `ValueError`
(the spec's `ValidationError`), and every level 1–6 constructs an
element rendering `<h{level}></h{level}>`. -/
theorem claim_C6_heading_levels :
    hNew 0 [] [] = Except.error
      (PyError.valueError "The heading level must be an integer in range 1-6.") ∧
    hNew 7 [] [] = Except.error
      (PyError.valueError "The heading level must be an integer in range 1-6.") ∧
    ∀ level : Int, 1 ≤ level → level ≤ 6 →
      (hNew level [] []).map Element.render =
        Except.ok ("<h" ++ toString level ++ "></h" ++ toString level ++ ">") := by
  refine ⟨rfl, rfl, ?_⟩
  intro level h1 h2
  interval_cases level <;> rfl

/-- Witness for C6 at level 3: the heading renders `<h3></h3>`. -/
theorem claim_C6_heading_levels_witness :
    (hNew 3 [] []).map Element.render = Except.ok "<h3></h3>" :=
  (claim_C6_heading_levels.2.2 3 (by decide) (by decide)).trans rfl

/-- Claim C7: an attribute supplied under a key with no edge
underscores (and a non-whitespace, non-underscore first character, such
as `data_x`) renders with the key's underscores replaced by hyphens and
its value wrapped in double quotes. -/
theorem claim_C7_underscore_attributes (name value : String)
    (h0 : name ≠ "style")
    (h1 : name.data.head?.all (fun c => !(c == '_') && !isPySpace c) = true)
    (h2 : name.data.getLast?.all (fun c => !(c == '_')) = true) :
    (Element.init "div" true [] [(name, PyVal.str value)]).map Element.render =
      Except.ok ("<div " ++ underscoreToHyphen name ++ "=\x22" ++ value ++ "\x22></div>") := by
  have h1u : name.data.head?.all (fun c => !(c == '_')) = true := by
    cases hh : name.data.head? with
    | none => rfl
    | some c =>
      rw [hh] at h1
      simp [Option.all_some] at h1 ⊢
      exact h1.1
  have hnk : normalizeKey name = underscoreToHyphen name := by
    unfold normalizeKey
    rw [stripUnderscores_eq_self h1u h2]
  have hhh : (underscoreToHyphen name).data.head?.all (fun c => !isPySpace c) = true := by
    show Option.all _ ((name.data.map (fun c => if c == '_' then '-' else c)).head?) = true
    rw [List.head?_map]
    cases hh : name.data.head? with
    | none => rfl
    | some c =>
      rw [hh] at h1
      simp [Option.all_some] at h1 ⊢
      rw [if_neg h1.1]
      exact h1.2
  rw [init_single_prop name value h0, hnk]
  simp only [Except.map]
  exact congrArg Except.ok
    (render_single_attr (underscoreToHyphen name) value [(name, PyVal.str value)] hhh)

/-- Witness for C7: the key `data_x` with value `1` renders as
`data-x="1"`. -/
theorem claim_C7_underscore_attributes_witness :
    (Element.init "div" true [] [("data_x", PyVal.str "1")]).map Element.render
      = Except.ok "<div data-x=\x221\x22></div>" :=
  (claim_C7_underscore_attributes "data_x" "1" (by decide) (by decide) (by decide)).trans rfl

/-- Claim C8: a style mapping renders order-preservingly as
`name: value;` declarations with underscores in keys hyphenated:
`{color: "red", font_size: "12px"}` gives
`style="color: red;font-size: 12px;"`, and the reversed mapping gives
the reversed declaration list. -/
theorem claim_C8_style_mapping :
    (Element.init "div" true []
        [("style", PyVal.dict [("color", "red"), ("font_size", "12px")])]).map Element.render
      = Except.ok "<div style=\"color: red;font-size: 12px;\"></div>" ∧
    (Element.init "div" true []
        [("style", PyVal.dict [("font_size", "12px"), ("color", "red")])]).map Element.render
      = Except.ok "<div style=\"font-size: 12px;color: red;\"></div>" :=
  ⟨rfl, rfl⟩

/-- Claim C9: leading and trailing underscores of property and style
keys are stripped (`name.strip("_")`) and only interior underscores
become hyphens: `class_` yields the attribute name `class`, `_data_x_`
yields `data-x`, and the style key `_font_size_` yields `font-size`. -/
theorem claim_C9_edge_underscores_stripped :
    (Element.init "div" true [] [("class_", PyVal.str "c")]).map Element.render
      = Except.ok "<div class=\"c\"></div>" ∧
    (Element.init "div" true [] [("_data_x_", PyVal.str "v")]).map Element.render
      = Except.ok "<div data-x=\"v\"></div>" ∧
    (Element.init "div" true []
        [("style", PyVal.dict [("_font_size_", "12px")])]).map Element.render
      = Except.ok "<div style=\"font-size: 12px;\"></div>" :=
  ⟨rfl, rfl, rfl⟩

/-- Claim C10: a falsy `style` value — the empty string, an empty
mapping, `None`, or `0` — is silently ignored: construction succeeds
and no `style` attribute is rendered, even for the values that are
neither strings nor mappings. -/
theorem claim_C10_falsy_style_ignored :
    (Element.init "div" true [] [("style", PyVal.str "")]).map Element.render
      = Except.ok "<div></div>" ∧
    (Element.init "div" true [] [("style", PyVal.dict [])]).map Element.render
      = Except.ok "<div></div>" ∧
    (Element.init "div" true [] [("style", PyVal.none)]).map Element.render
      = Except.ok "<div></div>" ∧
    (Element.init "div" true [] [("style", PyVal.int 0)]).map Element.render
      = Except.ok "<div></div>" :=
  ⟨rfl, rfl, rfl, rfl⟩

end Markupify
